import Mathlib

/-!
Shallow embedding of `massa-pool-worker/src/controller_impl.rs`.

The controller (`PoolControllerImpl`) holds shared references to two
read-write-locked pool states and to the sending ends of two command
channels; the manager (`PoolManagerImpl`) holds the two senders and the
two worker join handles.  Shared cells (the `Arc<RwLock<_>>` pools and the
channel buffers) are modelled by an explicit store (`SysState`) of cells
indexed by `Nat`; a handle holds indices into that store, so cloning a
handle copies references, not data.  An `mpsc` channel is a queue plus a
flag saying whether the receiving end is still alive: a send on a live
channel appends the command, a send on a dead channel fails
(`SendError`), which the controller maps to `PoolError.ChannelError` with
the exact message strings of the source.  Methods taking `&mut self` or
`&self` are embedded in state-passing style `SysState → SysState × α`;
methods that only read return the state unchanged.  A worker thread's
eventual outcome (panic, or an ordinary `Result` value) is recorded in
its join handle; `join().expect(..)` on a panicked thread crashes the
joining context, modelled by `Option` (`none` = crash).  `tracing` log
output is modelled as an explicit list of log events.
-/

abbrev OperationId := Nat

abbrev EndorsementId := Nat

abbrev BlockId := Nat

/-- Opaque stand-in for `massa_storage::Storage` (the item container). -/
abbrev Storage := Nat

/-- Opaque stand-in for `PoolConfig` (never read by this code). -/
abbrev PoolConfig := Unit

/-- `massa_models::slot::Slot`: a period and a thread number. -/
structure Slot where
  period : Nat
  thread : Nat
deriving DecidableEq, Repr

/-- The command protocol of `controller_impl.rs`. -/
inductive Command where
  | AddOperations (ops : Storage)
  | AddEndorsements (endorsements : Storage)
  | NotifyFinalCsPeriods (final_cs_periods : List Nat)
  | Stop
deriving DecidableEq, Repr

/-- The only error kind this core originates (`PoolError::ChannelError`). -/
inductive PoolError where
  | ChannelError (msg : String)
deriving DecidableEq, Repr

/-- An `mpsc::sync_channel` buffer: pending commands plus whether the
receiving end (the worker) is still alive. -/
structure Channel where
  receiverAlive : Bool
  queue : List Command
deriving DecidableEq, Repr

/-- `SyncSender::send`: appends to the buffer when the receiver is alive,
fails (`SendError`, modelled as `none`) when the receiver is gone. -/
def Channel.send (ch : Channel) (cmd : Command) : Option Channel :=
  if ch.receiverAlive then some { ch with queue := ch.queue ++ [cmd] } else none

/-- The external operation-pool policy (`OperationPool`), opaque to this
core: only its consumed interface is modelled, as function fields. -/
structure OperationPool where
  get_block_operations : Slot → List OperationId × Storage
  len : Nat
  contains : OperationId → Bool

/-- The external endorsement-pool policy (`EndorsementPool`), opaque to
this core.  Note the source calls `get_block_endorsements(target_slot,
target_block)`, slot first. -/
structure EndorsementPool where
  get_block_endorsements : Slot → BlockId → List (Option EndorsementId) × Storage
  len : Nat
  contains : EndorsementId → Bool

/-- The store of shared cells: the `Arc<RwLock<OperationPool>>` and
`Arc<RwLock<EndorsementPool>>` cells and the channel buffers, each
addressed by a reference (a `Nat`). -/
structure SysState where
  opPools : Nat → OperationPool
  endPools : Nat → EndorsementPool
  opChans : Nat → Channel
  endChans : Nat → Channel

/-- Write back an operations-channel cell. -/
def SysState.setOpChan (s : SysState) (r : Nat) (ch : Channel) : SysState :=
  { s with opChans := fun i => if i = r then ch else s.opChans i }

/-- Write back an endorsements-channel cell. -/
def SysState.setEndChan (s : SysState) (r : Nat) (ch : Channel) : SysState :=
  { s with endChans := fun i => if i = r then ch else s.endChans i }

/-- `PoolControllerImpl`: a handle holding shared references (store
indices) to both pools and both channel senders. -/
structure PoolControllerImpl where
  _config : PoolConfig
  operation_pool : Nat
  endorsement_pool : Nat
  operations_input_sender : Nat
  endorsements_input_sender : Nat
deriving DecidableEq, Repr

/-- `PoolControllerImpl::add_operations`: send `AddOperations(ops)` on the
operations channel; map a send failure to `ChannelError`. -/
def PoolControllerImpl.add_operations (c : PoolControllerImpl) (s : SysState)
    (ops : Storage) : SysState × Except PoolError Unit :=
  match (s.opChans c.operations_input_sender).send (Command.AddOperations ops) with
  | some ch => (s.setOpChan c.operations_input_sender ch, Except.ok ())
  | none =>
      (s, Except.error (PoolError.ChannelError
        "could not give operations to add through pool channel"))

/-- `PoolControllerImpl::add_endorsements`: send `AddEndorsements` on the
endorsements channel; map a send failure to `ChannelError`. -/
def PoolControllerImpl.add_endorsements (c : PoolControllerImpl) (s : SysState)
    (endorsements : Storage) : SysState × Except PoolError Unit :=
  match (s.endChans c.endorsements_input_sender).send
      (Command.AddEndorsements endorsements) with
  | some ch => (s.setEndChan c.endorsements_input_sender ch, Except.ok ())
  | none =>
      (s, Except.error (PoolError.ChannelError
        "could not give endorsements to add through pool channel"))

/-- `PoolControllerImpl::notify_final_cs_periods`: send
`NotifyFinalCsPeriods` on the operations channel, propagating a failure
with `?` (so the endorsements send is not reached), then on the
endorsements channel.  The two error strings are the source's, including
the missing space in the second one. -/
def PoolControllerImpl.notify_final_cs_periods (c : PoolControllerImpl) (s : SysState)
    (final_cs_periods : List Nat) : SysState × Except PoolError Unit :=
  match (s.opChans c.operations_input_sender).send
      (Command.NotifyFinalCsPeriods final_cs_periods) with
  | none =>
      (s, Except.error (PoolError.ChannelError
        "could not give consensus periods through pool channel"))
  | some ch =>
      let s1 := s.setOpChan c.operations_input_sender ch
      match (s1.endChans c.endorsements_input_sender).send
          (Command.NotifyFinalCsPeriods final_cs_periods) with
      | none =>
          (s1, Except.error (PoolError.ChannelError
            "could not give consensus periodsthrough pool channel"))
      | some ch2 => (s1.setEndChan c.endorsements_input_sender ch2, Except.ok ())

/-- `PoolControllerImpl::get_block_operations`: read-lock the operation
pool and delegate to the policy's selection. -/
def PoolControllerImpl.get_block_operations (c : PoolControllerImpl) (s : SysState)
    (slot : Slot) : SysState × (List OperationId × Storage) :=
  (s, (s.opPools c.operation_pool).get_block_operations slot)

/-- `PoolControllerImpl::get_block_endorsements`: read-lock the
endorsement pool and delegate, passing `(target_slot, target_block)` in
the source's order. -/
def PoolControllerImpl.get_block_endorsements (c : PoolControllerImpl) (s : SysState)
    (target_block : BlockId) (target_slot : Slot) :
    SysState × (List (Option EndorsementId) × Storage) :=
  (s, (s.endPools c.endorsement_pool).get_block_endorsements target_slot target_block)

/-- `PoolControllerImpl::clone_box` (via `#[derive(Clone)]`): copies the
`Arc` and sender references field by field — a shallow reference copy. -/
def PoolControllerImpl.clone_box (c : PoolControllerImpl) : PoolControllerImpl :=
  { _config := c._config
    operation_pool := c.operation_pool
    endorsement_pool := c.endorsement_pool
    operations_input_sender := c.operations_input_sender
    endorsements_input_sender := c.endorsements_input_sender }

/-- `PoolControllerImpl::get_endorsement_count`. -/
def PoolControllerImpl.get_endorsement_count (c : PoolControllerImpl) (s : SysState) :
    SysState × Nat :=
  (s, (s.endPools c.endorsement_pool).len)

/-- `PoolControllerImpl::get_operation_count`. -/
def PoolControllerImpl.get_operation_count (c : PoolControllerImpl) (s : SysState) :
    SysState × Nat :=
  (s, (s.opPools c.operation_pool).len)

/-- `PoolControllerImpl::contains_endorsements`: take one read lock
(`lck`), then map `lck.contains` over the ids. -/
def PoolControllerImpl.contains_endorsements (c : PoolControllerImpl) (s : SysState)
    (endorsements : List EndorsementId) : SysState × List Bool :=
  let lck := s.endPools c.endorsement_pool
  (s, endorsements.map (fun id => lck.contains id))

/-- `PoolControllerImpl::contains_operations`: take one read lock
(`lck`), then map `lck.contains` over the ids. -/
def PoolControllerImpl.contains_operations (c : PoolControllerImpl) (s : SysState)
    (operations : List OperationId) : SysState × List Bool :=
  let lck := s.opPools c.operation_pool
  (s, operations.map (fun id => lck.contains id))

deriving instance DecidableEq for Except

/-- The eventual outcome of a worker thread, as observed through its join
handle: it either panicked, or finished with a `Result<(), PoolError>`. -/
inductive JoinOutcome where
  | panicked
  | finished (r : Except PoolError Unit)
deriving DecidableEq, Repr

/-- A `tracing` log event emitted by `stop`. -/
inductive LogEvent where
  | info (msg : String)
  | warn (err : PoolError)
deriving DecidableEq, Repr

/-- `PoolManagerImpl`: the two join handles (taken out on stop) and the
two channel senders. -/
structure PoolManagerImpl where
  operations_thread_handle : Option JoinOutcome
  endorsements_thread_handle : Option JoinOutcome
  operations_input_sender : Nat
  endorsements_input_sender : Nat
deriving DecidableEq, Repr

/-- `let _ = sender.send(cmd);`: send with the result discarded — the
channel is updated on success and left as-is on failure. -/
def sendIgnore (ch : Channel) (cmd : Command) : Channel :=
  match ch.send cmd with
  | some ch2 => ch2
  | none => ch

/-- `if let Some(h) = handle.take() { if let Err(e) =
h.join().expect(..) { warn!(e) } }`: no handle logs nothing; a panicked
thread crashes the joining context (`none`); an `Err` value is logged; an
`Ok` logs nothing. -/
def joinAndWarn (h : Option JoinOutcome) : Option (List LogEvent) :=
  match h with
  | none => some []
  | some JoinOutcome.panicked => none
  | some (JoinOutcome.finished (Except.error err)) => some [LogEvent.warn err]
  | some (JoinOutcome.finished (Except.ok _)) => some []

/-- `PoolManagerImpl::stop`: log, best-effort `Stop` on the operations
then the endorsements channel, then take and join the operations handle
then the endorsements handle (a panicked thread crashes the join via
`expect`; an `Err` value is only warned), then log.  Returns the store,
the manager (handles taken), and the log; `none` means the joining
context itself panicked. -/
def PoolManagerImpl.stop (m : PoolManagerImpl) (s : SysState) :
    Option (SysState × PoolManagerImpl × List LogEvent) :=
  let s1 := s.setOpChan m.operations_input_sender
    (sendIgnore (s.opChans m.operations_input_sender) Command.Stop)
  let s2 := s1.setEndChan m.endorsements_input_sender
    (sendIgnore (s1.endChans m.endorsements_input_sender) Command.Stop)
  Option.bind (joinAndWarn m.operations_thread_handle) (fun w1 =>
    Option.bind (joinAndWarn m.endorsements_thread_handle) (fun w2 =>
      some (s2,
        { m with
            operations_thread_handle := none
            endorsements_thread_handle := none },
        [LogEvent.info "stopping pool worker..."] ++ w1 ++ w2
          ++ [LogEvent.info "pool worker stopped"])))

/-- Modelled from the spec: step (1) of `stop` — "send `Stop` on the
operations channel, ignoring send failure". -/
def specSendStopOperations (m : PoolManagerImpl) (s : SysState) : SysState :=
  match (s.opChans m.operations_input_sender).send Command.Stop with
  | some ch => s.setOpChan m.operations_input_sender ch
  | none => s

/-- Modelled from the spec: step (2) of `stop` — "send `Stop` on the
endorsements channel, same policy". -/
def specSendStopEndorsements (m : PoolManagerImpl) (s : SysState) : SysState :=
  match (s.endChans m.endorsements_input_sender).send Command.Stop with
  | some ch => s.setEndChan m.endorsements_input_sender ch
  | none => s

/-- Modelled from the spec: step (3) of `stop` — "if an operations-worker
join-handle is present, block until that thread terminates, logging (not
propagating) any error it returned"; the handle is consumed, and a
panicked thread crashes the joining context. -/
def specJoinOperationsWorker (m : PoolManagerImpl) :
    Option (PoolManagerImpl × List LogEvent) :=
  match m.operations_thread_handle with
  | none => some (m, [])
  | some JoinOutcome.panicked => none
  | some (JoinOutcome.finished (Except.ok _)) =>
      some ({ m with operations_thread_handle := none }, [])
  | some (JoinOutcome.finished (Except.error err)) =>
      some ({ m with operations_thread_handle := none }, [LogEvent.warn err])

/-- Modelled from the spec: step (4) of `stop` — "same for the
endorsements-worker join-handle". -/
def specJoinEndorsementsWorker (m : PoolManagerImpl) :
    Option (PoolManagerImpl × List LogEvent) :=
  match m.endorsements_thread_handle with
  | none => some (m, [])
  | some JoinOutcome.panicked => none
  | some (JoinOutcome.finished (Except.ok _)) =>
      some ({ m with endorsements_thread_handle := none }, [])
  | some (JoinOutcome.finished (Except.error err)) =>
      some ({ m with endorsements_thread_handle := none }, [LogEvent.warn err])

/-- Modelled from the spec: the four steps of §4.4 composed in order
(1)–(4), bracketed by the two informational log lines of the source. -/
def stopSpecSteps (m : PoolManagerImpl) (s : SysState) :
    Option (SysState × PoolManagerImpl × List LogEvent) :=
  let s1 := specSendStopOperations m s
  let s2 := specSendStopEndorsements m s1
  match specJoinOperationsWorker m with
  | none => none
  | some (m1, w1) =>
      match specJoinEndorsementsWorker m1 with
      | none => none
      | some (m2, w2) =>
          some (s2, m2,
            [LogEvent.info "stopping pool worker..."] ++ w1 ++ w2
              ++ [LogEvent.info "pool worker stopped"])

/-- The manager after a completed `stop`: both handles taken out. -/
def stoppedManager (m : PoolManagerImpl) : PoolManagerImpl :=
  { m with
      operations_thread_handle := none
      endorsements_thread_handle := none }

/-- A concrete operation-pool policy used to instantiate theorems. -/
def fixtureOperationPool : OperationPool :=
  { get_block_operations := fun _ => ([1, 2], 9)
    len := 2
    contains := fun id => id == 1 }

/-- A concrete endorsement-pool policy used to instantiate theorems. -/
def fixtureEndorsementPool : EndorsementPool :=
  { get_block_endorsements := fun _ _ => ([some 3, none], 9)
    len := 1
    contains := fun id => id == 3 }

/-- A channel whose worker is still receiving. -/
def chanOpen : Channel := { receiverAlive := true, queue := [] }

/-- A channel whose worker has terminated. -/
def chanClosed : Channel := { receiverAlive := false, queue := [] }

/-- A store filling every cell with the fixtures and the given two
channel contents. -/
def mkState (opCh endCh : Channel) : SysState :=
  { opPools := fun _ => fixtureOperationPool
    endPools := fun _ => fixtureEndorsementPool
    opChans := fun _ => opCh
    endChans := fun _ => endCh }

/-- A controller handle whose references all point at cell 0. -/
def ctrl0 : PoolControllerImpl :=
  { _config := ()
    operation_pool := 0
    endorsement_pool := 0
    operations_input_sender := 0
    endorsements_input_sender := 0 }

theorem setOpChan_self (s : SysState) (r : Nat) :
    s.setOpChan r (s.opChans r) = s := by
  cases s with
  | mk oP eP oC eC =>
      unfold SysState.setOpChan
      congr 1
      funext i
      by_cases h : i = r <;> simp [h]

theorem setEndChan_self (s : SysState) (r : Nat) :
    s.setEndChan r (s.endChans r) = s := by
  cases s with
  | mk oP eP oC eC =>
      unfold SysState.setEndChan
      congr 1
      funext i
      by_cases h : i = r <;> simp [h]

/-- Claim C7: for every slot, `get_block_operations` returns, under a
read acquisition of the operation pool state, exactly the pair produced
by the external operation-pool policy's selection for that slot; for
every target block and slot, `get_block_endorsements` returns exactly the
endorsement pool policy's aligned Option-id list and backing container
for that block and slot (the policy is called with the source's
`(target_slot, target_block)` argument order). -/
theorem get_block_queries_delegate_to_pool_policy (s : SysState)
    (c : PoolControllerImpl) (slot : Slot) (target_block : BlockId)
    (target_slot : Slot) :
    (c.get_block_operations s slot).2
        = (s.opPools c.operation_pool).get_block_operations slot
      ∧ (c.get_block_endorsements s target_block target_slot).2
        = (s.endPools c.endorsement_pool).get_block_endorsements
            target_slot target_block :=
  ⟨rfl, rfl⟩

/-- Claim C8: `clone_box` is a shallow reference copy: the cloned handle
holds the very same pool references and sender references, and every
query on the clone observes the same shared pool state as the same query
on the original, in every store. -/
theorem clone_box_shares_underlying_state (c : PoolControllerImpl)
    (s : SysState) (slot : Slot) (target_block : BlockId) (target_slot : Slot)
    (opIds : List OperationId) (endIds : List EndorsementId) :
    c.clone_box = c
      ∧ c.clone_box.operation_pool = c.operation_pool
      ∧ c.clone_box.endorsement_pool = c.endorsement_pool
      ∧ c.clone_box.operations_input_sender = c.operations_input_sender
      ∧ c.clone_box.endorsements_input_sender = c.endorsements_input_sender
      ∧ (c.clone_box.get_operation_count s).2 = (c.get_operation_count s).2
      ∧ (c.clone_box.get_endorsement_count s).2 = (c.get_endorsement_count s).2
      ∧ c.clone_box.contains_operations s opIds = c.contains_operations s opIds
      ∧ c.clone_box.contains_endorsements s endIds
        = c.contains_endorsements s endIds
      ∧ c.clone_box.get_block_operations s slot = c.get_block_operations s slot
      ∧ c.clone_box.get_block_endorsements s target_block target_slot
        = c.get_block_endorsements s target_block target_slot :=
  ⟨rfl, rfl, rfl, rfl, rfl, rfl, rfl, rfl, rfl, rfl, rfl⟩

/-- Claim C4: the mutating operations (`add_operations`,
`add_endorsements`, `notify_final_cs_periods`) never write either pool
state — their only store effect is on the command channels (and each
`add_*` leaves the other kind's channels untouched); the read operations
(`get_block_operations`, `get_block_endorsements`, `get_operation_count`,
`get_endorsement_count`, `contains_operations`, `contains_endorsements`)
return the store completely unchanged, so they send on no channel and
write no pool state. -/
theorem controller_frame_effects (s : SysState) (c : PoolControllerImpl)
    (ops ends : Storage) (ps : List Nat) (slot : Slot) (target_block : BlockId)
    (target_slot : Slot) (opIds : List OperationId)
    (endIds : List EndorsementId) :
    ((c.add_operations s ops).1.opPools = s.opPools
        ∧ (c.add_operations s ops).1.endPools = s.endPools
        ∧ (c.add_operations s ops).1.endChans = s.endChans)
      ∧ ((c.add_endorsements s ends).1.opPools = s.opPools
        ∧ (c.add_endorsements s ends).1.endPools = s.endPools
        ∧ (c.add_endorsements s ends).1.opChans = s.opChans)
      ∧ ((c.notify_final_cs_periods s ps).1.opPools = s.opPools
        ∧ (c.notify_final_cs_periods s ps).1.endPools = s.endPools)
      ∧ (c.get_block_operations s slot).1 = s
      ∧ (c.get_block_endorsements s target_block target_slot).1 = s
      ∧ (c.get_operation_count s).1 = s
      ∧ (c.get_endorsement_count s).1 = s
      ∧ (c.contains_operations s opIds).1 = s
      ∧ (c.contains_endorsements s endIds).1 = s := by
  refine ⟨⟨?_, ?_, ?_⟩, ⟨?_, ?_, ?_⟩, ⟨?_, ?_⟩, rfl, rfl, rfl, rfl, rfl, rfl⟩ <;>
    · first
      | (unfold PoolControllerImpl.add_operations
         split <;> rfl)
      | (unfold PoolControllerImpl.add_endorsements
         split <;> rfl)
      | (unfold PoolControllerImpl.notify_final_cs_periods
         split <;> first
           | rfl
           | (dsimp only
              split <;> rfl))

/-- Claim C2: `add_operations` (resp. `add_endorsements`) enqueues
exactly one `Add` command on its own channel and returns `Ok`; it returns
a `ChannelError` if and only if the worker's receiving end of that
channel has terminated, and in that case it returns immediately with the
store unchanged (the embedding is a total function: no blocking, no
panic). -/
theorem add_commands_enqueue_or_channel_error (s : SysState)
    (c : PoolControllerImpl) (ops ends : Storage) :
    ((c.add_operations s ops).2 = Except.ok ()
        ↔ (s.opChans c.operations_input_sender).receiverAlive = true)
      ∧ ((s.opChans c.operations_input_sender).receiverAlive = true →
          ((c.add_operations s ops).1.opChans c.operations_input_sender).queue
              = (s.opChans c.operations_input_sender).queue
                ++ [Command.AddOperations ops]
            ∧ (c.add_operations s ops).1.endChans = s.endChans)
      ∧ ((s.opChans c.operations_input_sender).receiverAlive = false →
          c.add_operations s ops
            = (s, Except.error (PoolError.ChannelError
                "could not give operations to add through pool channel")))
      ∧ ((c.add_endorsements s ends).2 = Except.ok ()
        ↔ (s.endChans c.endorsements_input_sender).receiverAlive = true)
      ∧ ((s.endChans c.endorsements_input_sender).receiverAlive = true →
          ((c.add_endorsements s ends).1.endChans
              c.endorsements_input_sender).queue
              = (s.endChans c.endorsements_input_sender).queue
                ++ [Command.AddEndorsements ends]
            ∧ (c.add_endorsements s ends).1.opChans = s.opChans)
      ∧ ((s.endChans c.endorsements_input_sender).receiverAlive = false →
          c.add_endorsements s ends
            = (s, Except.error (PoolError.ChannelError
                "could not give endorsements to add through pool channel"))) := by
  by_cases hop : (s.opChans c.operations_input_sender).receiverAlive = true <;>
    by_cases hend : (s.endChans c.endorsements_input_sender).receiverAlive = true <;>
      simp [PoolControllerImpl.add_operations, PoolControllerImpl.add_endorsements,
        Channel.send, SysState.setOpChan, SysState.setEndChan, hop, hend]

/-- Claim C2 (witness): on a store whose operations channel is live and
whose endorsements channel is dead, `add_operations` enqueues its one
command and `add_endorsements` fails with the source's `ChannelError`. -/
theorem add_commands_enqueue_or_channel_error_witness :
    (((mkState chanOpen chanClosed).opChans 0).receiverAlive = true
        ∧ ((ctrl0.add_operations (mkState chanOpen chanClosed) 7).1.opChans 0).queue
            = ((mkState chanOpen chanClosed).opChans 0).queue
              ++ [Command.AddOperations 7]
          ∧ (ctrl0.add_operations (mkState chanOpen chanClosed) 7).1.endChans
            = (mkState chanOpen chanClosed).endChans)
      ∧ (((mkState chanOpen chanClosed).endChans 0).receiverAlive = false
        ∧ ctrl0.add_endorsements (mkState chanOpen chanClosed) 8
            = (mkState chanOpen chanClosed, Except.error (PoolError.ChannelError
                "could not give endorsements to add through pool channel"))) :=
  ⟨⟨by decide,
    (add_commands_enqueue_or_channel_error (mkState chanOpen chanClosed) ctrl0
      7 8).2.1 (by decide)⟩,
   ⟨by decide,
    (add_commands_enqueue_or_channel_error (mkState chanOpen chanClosed) ctrl0
      7 8).2.2.2.2.2 (by decide)⟩⟩

/-- Claim C1 (counterexample): with the operations channel dead and the
endorsements channel live, `notify_final_cs_periods` fails on the first
send and never enqueues anything on the still-open endorsements channel —
refuting "if the send on either channel fails, it still attempts the send
on the other channel". -/
theorem notify_first_failure_skips_other_channel :
    ((mkState chanClosed chanOpen).opChans 0).receiverAlive = false
      ∧ ((mkState chanClosed chanOpen).endChans 0).receiverAlive = true
      ∧ (ctrl0.notify_final_cs_periods (mkState chanClosed chanOpen) [5, 5]).2
          = Except.error (PoolError.ChannelError
              "could not give consensus periods through pool channel")
      ∧ ((ctrl0.notify_final_cs_periods (mkState chanClosed chanOpen)
            [5, 5]).1.endChans 0).queue = [] := by
  decide

/-- Claim C1 (amended): `notify_final_cs_periods` sends the same
notification command on the operations channel first; if that send fails
it returns its `ChannelError` at once, with the store unchanged (the
endorsements send is not attempted); otherwise it sends the same command
on the endorsements channel and, if that fails, returns the second
(garbled-message) `ChannelError`, the operations command remaining
enqueued; if both sends succeed it returns `Ok` with the same command on
both queues. -/
theorem notify_final_cs_periods_amended (s : SysState)
    (c : PoolControllerImpl) (ps : List Nat) :
    ((c.notify_final_cs_periods s ps).2 = Except.ok ()
        ↔ (s.opChans c.operations_input_sender).receiverAlive = true
          ∧ (s.endChans c.endorsements_input_sender).receiverAlive = true)
      ∧ ((s.opChans c.operations_input_sender).receiverAlive = false →
          c.notify_final_cs_periods s ps
            = (s, Except.error (PoolError.ChannelError
                "could not give consensus periods through pool channel")))
      ∧ ((s.opChans c.operations_input_sender).receiverAlive = true →
          (s.endChans c.endorsements_input_sender).receiverAlive = false →
          (c.notify_final_cs_periods s ps).2
              = Except.error (PoolError.ChannelError
                  "could not give consensus periodsthrough pool channel")
            ∧ ((c.notify_final_cs_periods s ps).1.opChans
                c.operations_input_sender).queue
              = (s.opChans c.operations_input_sender).queue
                ++ [Command.NotifyFinalCsPeriods ps]
            ∧ (c.notify_final_cs_periods s ps).1.endChans = s.endChans)
      ∧ ((s.opChans c.operations_input_sender).receiverAlive = true →
          (s.endChans c.endorsements_input_sender).receiverAlive = true →
          ((c.notify_final_cs_periods s ps).1.opChans
              c.operations_input_sender).queue
              = (s.opChans c.operations_input_sender).queue
                ++ [Command.NotifyFinalCsPeriods ps]
            ∧ ((c.notify_final_cs_periods s ps).1.endChans
                c.endorsements_input_sender).queue
              = (s.endChans c.endorsements_input_sender).queue
                ++ [Command.NotifyFinalCsPeriods ps]) := by
  by_cases hop : (s.opChans c.operations_input_sender).receiverAlive = true <;>
    by_cases hend : (s.endChans c.endorsements_input_sender).receiverAlive = true <;>
      simp [PoolControllerImpl.notify_final_cs_periods, Channel.send,
        SysState.setOpChan, SysState.setEndChan, hop, hend]

/-- Claim C1 (amended, witness): on a store with the operations channel
live and the endorsements channel dead, the second-send failure branch of
the amended statement holds. -/
theorem notify_final_cs_periods_amended_witness :
    ((mkState chanOpen chanClosed).opChans 0).receiverAlive = true
      ∧ ((mkState chanOpen chanClosed).endChans 0).receiverAlive = false
      ∧ ((ctrl0.notify_final_cs_periods (mkState chanOpen chanClosed) [5, 5]).2
            = Except.error (PoolError.ChannelError
                "could not give consensus periodsthrough pool channel")
          ∧ ((ctrl0.notify_final_cs_periods (mkState chanOpen chanClosed)
                [5, 5]).1.opChans 0).queue
            = ((mkState chanOpen chanClosed).opChans 0).queue
              ++ [Command.NotifyFinalCsPeriods [5, 5]]
          ∧ (ctrl0.notify_final_cs_periods (mkState chanOpen chanClosed)
                [5, 5]).1.endChans
            = (mkState chanOpen chanClosed).endChans) :=
  ⟨by decide, by decide,
    (notify_final_cs_periods_amended (mkState chanOpen chanClosed) ctrl0
      [5, 5]).2.2.1 (by decide) (by decide)⟩

/-- Claim C9: `notify_final_cs_periods` is not atomic on error — when the
operations-channel send succeeds and the endorsements-channel send fails,
it returns a `ChannelError` although the notification command has already
been enqueued on the operations channel. -/
theorem notify_partial_effect_despite_error (s : SysState)
    (c : PoolControllerImpl) (ps : List Nat)
    (hop : (s.opChans c.operations_input_sender).receiverAlive = true)
    (hend : (s.endChans c.endorsements_input_sender).receiverAlive = false) :
    (∃ msg, (c.notify_final_cs_periods s ps).2
        = Except.error (PoolError.ChannelError msg))
      ∧ ((c.notify_final_cs_periods s ps).1.opChans
          c.operations_input_sender).queue
        = (s.opChans c.operations_input_sender).queue
          ++ [Command.NotifyFinalCsPeriods ps] := by
  refine ⟨⟨"could not give consensus periodsthrough pool channel", ?_⟩, ?_⟩ <;>
    simp [PoolControllerImpl.notify_final_cs_periods, Channel.send,
      SysState.setOpChan, SysState.setEndChan, hop, hend]

/-- Claim C9 (witness): the partial effect at a concrete store with a
live operations channel and a dead endorsements channel. -/
theorem notify_partial_effect_despite_error_witness :
    ((mkState chanOpen chanClosed).opChans 0).receiverAlive = true
      ∧ ((mkState chanOpen chanClosed).endChans 0).receiverAlive = false
      ∧ ((∃ msg, (ctrl0.notify_final_cs_periods (mkState chanOpen chanClosed)
              [5, 5]).2 = Except.error (PoolError.ChannelError msg))
          ∧ ((ctrl0.notify_final_cs_periods (mkState chanOpen chanClosed)
                [5, 5]).1.opChans 0).queue
            = ((mkState chanOpen chanClosed).opChans 0).queue
              ++ [Command.NotifyFinalCsPeriods [5, 5]]) :=
  ⟨by decide, by decide,
    notify_partial_effect_despite_error (mkState chanOpen chanClosed) ctrl0
      [5, 5] (by decide) (by decide)⟩

/-- Claim C3: `contains_operations` (resp. `contains_endorsements`)
returns a boolean list of the same length as its input whose `i`-th entry
is the pool's `contains` of the `i`-th input id, every lookup evaluated
against the one pool value read under the single lock acquisition. -/
theorem contains_queries_single_snapshot (s : SysState)
    (c : PoolControllerImpl) (opIds : List OperationId)
    (endIds : List EndorsementId) :
    ((c.contains_operations s opIds).2.length = opIds.length
        ∧ ∀ i, i < opIds.length →
            (c.contains_operations s opIds).2.getD i false
              = (s.opPools c.operation_pool).contains (opIds.getD i 0))
      ∧ ((c.contains_endorsements s endIds).2.length = endIds.length
        ∧ ∀ i, i < endIds.length →
            (c.contains_endorsements s endIds).2.getD i false
              = (s.endPools c.endorsement_pool).contains (endIds.getD i 0)) := by
  refine ⟨⟨?_, ?_⟩, ⟨?_, ?_⟩⟩
  · simp [PoolControllerImpl.contains_operations]
  · intro i hi
    simp [PoolControllerImpl.contains_operations,
      List.getD_eq_getElem?_getD, List.getElem?_map,
      List.getElem?_eq_getElem hi]
  · simp [PoolControllerImpl.contains_endorsements]
  · intro i hi
    simp [PoolControllerImpl.contains_endorsements,
      List.getD_eq_getElem?_getD, List.getElem?_map,
      List.getElem?_eq_getElem hi]

/-- Claim C3 (witness): with the fixture pool (which contains exactly id
1), querying `[1, 2]` observes `contains 1` at position 0. -/
theorem contains_queries_single_snapshot_witness :
    0 < 2
      ∧ (ctrl0.contains_operations (mkState chanOpen chanOpen) [1, 2]).2.getD 0 false
        = ((mkState chanOpen chanOpen).opPools 0).contains ([1, 2].getD 0 0) :=
  ⟨by decide,
    (contains_queries_single_snapshot (mkState chanOpen chanOpen) ctrl0
      [1, 2] []).1.2 0 (by decide)⟩

@[simp]
theorem opPools_setOpChan (s : SysState) (r : Nat) (ch : Channel) :
    (s.setOpChan r ch).opPools = s.opPools := rfl

@[simp]
theorem endPools_setOpChan (s : SysState) (r : Nat) (ch : Channel) :
    (s.setOpChan r ch).endPools = s.endPools := rfl

@[simp]
theorem endChans_setOpChan (s : SysState) (r : Nat) (ch : Channel) :
    (s.setOpChan r ch).endChans = s.endChans := rfl

@[simp]
theorem opPools_setEndChan (s : SysState) (r : Nat) (ch : Channel) :
    (s.setEndChan r ch).opPools = s.opPools := rfl

@[simp]
theorem endPools_setEndChan (s : SysState) (r : Nat) (ch : Channel) :
    (s.setEndChan r ch).endPools = s.endPools := rfl

@[simp]
theorem opChans_setEndChan (s : SysState) (r : Nat) (ch : Channel) :
    (s.setEndChan r ch).opChans = s.opChans := rfl

@[simp]
theorem opChans_setOpChan_same (s : SysState) (r : Nat) (ch : Channel) :
    (s.setOpChan r ch).opChans r = ch := by
  simp [SysState.setOpChan]

@[simp]
theorem endChans_setEndChan_same (s : SysState) (r : Nat) (ch : Channel) :
    (s.setEndChan r ch).endChans r = ch := by
  simp [SysState.setEndChan]

/-- Claim C5: `stop` performs exactly the four steps of the shutdown
protocol in order — best-effort `Stop` on the operations channel, then on
the endorsements channel, then join-and-log of the operations worker (if
its handle is present), then of the endorsements worker — as composed by
`stopSpecSteps` from the spec's words. -/
theorem stop_performs_spec_steps (m : PoolManagerImpl) (s : SysState) :
    m.stop s = stopSpecSteps m s := by
  obtain ⟨opsH, endH, rop, rend⟩ := m
  by_cases hop : (s.opChans rop).receiverAlive = true <;>
    by_cases hend : (s.endChans rend).receiverAlive = true <;>
      rcases opsH with _ | (_ | (e1 | u1)) <;>
        rcases endH with _ | (_ | (e2 | u2)) <;>
          (simp [PoolManagerImpl.stop, stopSpecSteps, specSendStopOperations,
              specSendStopEndorsements, specJoinOperationsWorker,
              specJoinEndorsementsWorker, sendIgnore, joinAndWarn,
              Channel.send, hop, hend, setOpChan_self, setEndChan_self] <;>
            exact setEndChan_self _ _)

/-- A manager whose operations worker finished with an ordinary error and
whose endorsements handle is absent. -/
def mgrWorkerErr : PoolManagerImpl :=
  { operations_thread_handle :=
      some (JoinOutcome.finished (Except.error
        (PoolError.ChannelError "worker failed")))
    endorsements_thread_handle := none
    operations_input_sender := 0
    endorsements_input_sender := 0 }

/-- A manager whose operations worker finished cleanly and whose
endorsements handle is absent. -/
def mgrWorkerOk : PoolManagerImpl :=
  { operations_thread_handle := some (JoinOutcome.finished (Except.ok ()))
    endorsements_thread_handle := none
    operations_input_sender := 0
    endorsements_input_sender := 0 }

/-- Claim C6: `stop` never surfaces an error value (its result carries no
error component at all): it crashes the joining context (`none`) exactly
when a present worker handle panicked, and an ordinary error value
returned by a worker is only written to the log of an otherwise
successful call. -/
theorem stop_error_policy (s : SysState) (m : PoolManagerImpl) :
    (m.stop s = none
        ↔ m.operations_thread_handle = some JoinOutcome.panicked
          ∨ m.endorsements_thread_handle = some JoinOutcome.panicked)
      ∧ (∀ err, m.operations_thread_handle
            = some (JoinOutcome.finished (Except.error err)) →
          m.endorsements_thread_handle ≠ some JoinOutcome.panicked →
          ∃ out, m.stop s = some out ∧ LogEvent.warn err ∈ out.2.2)
      ∧ (∀ err, m.endorsements_thread_handle
            = some (JoinOutcome.finished (Except.error err)) →
          m.operations_thread_handle ≠ some JoinOutcome.panicked →
          ∃ out, m.stop s = some out ∧ LogEvent.warn err ∈ out.2.2) := by
  obtain ⟨opsH, endH, rop, rend⟩ := m
  rcases opsH with _ | (_ | (e1 | u1)) <;>
    rcases endH with _ | (_ | (e2 | u2)) <;>
      simp [PoolManagerImpl.stop, joinAndWarn]

/-- Claim C6 (witness): a worker that finished with an ordinary error is
logged, and `stop` still completes. -/
theorem stop_error_policy_witness :
    mgrWorkerErr.operations_thread_handle
        = some (JoinOutcome.finished (Except.error
            (PoolError.ChannelError "worker failed")))
      ∧ mgrWorkerErr.endorsements_thread_handle ≠ some JoinOutcome.panicked
      ∧ ∃ out, mgrWorkerErr.stop (mkState chanOpen chanOpen) = some out
          ∧ LogEvent.warn (PoolError.ChannelError "worker failed") ∈ out.2.2 :=
  ⟨by decide, by decide,
    (stop_error_policy (mkState chanOpen chanOpen) mgrWorkerErr).2.1
      (PoolError.ChannelError "worker failed") (by decide) (by decide)⟩

/-- Claim C10: once `stop` has completed, both handles have been taken
out, so a second `stop` on the stopped manager cannot panic and performs
no join: on any store it merely re-sends the two ignored `Stop` commands,
logs only the two informational lines, and returns the manager unchanged
— so the manager state after `stop(); stop()` equals the state after a
single `stop()`. -/
theorem stop_twice_harmless (s : SysState) (m : PoolManagerImpl)
    (hop : m.operations_thread_handle ≠ some JoinOutcome.panicked)
    (hend : m.endorsements_thread_handle ≠ some JoinOutcome.panicked) :
    ∃ s' log, m.stop s = some (s', stoppedManager m, log)
      ∧ (stoppedManager m).operations_thread_handle = none
      ∧ (stoppedManager m).endorsements_thread_handle = none
      ∧ ∀ t : SysState, (stoppedManager m).stop t
          = some
            ((t.setOpChan m.operations_input_sender
                (sendIgnore (t.opChans m.operations_input_sender)
                  Command.Stop)).setEndChan m.endorsements_input_sender
              (sendIgnore
                ((t.setOpChan m.operations_input_sender
                    (sendIgnore (t.opChans m.operations_input_sender)
                      Command.Stop)).endChans m.endorsements_input_sender)
                Command.Stop),
              stoppedManager m,
              [LogEvent.info "stopping pool worker...",
                LogEvent.info "pool worker stopped"]) := by
  obtain ⟨opsH, endH, rop, rend⟩ := m
  rcases opsH with _ | (_ | (e1 | u1)) <;>
    rcases endH with _ | (_ | (e2 | u2)) <;>
      first
        | exact absurd rfl hop
        | exact absurd rfl hend
        | exact ⟨_, _, rfl, rfl, rfl, fun t => rfl⟩

/-- Claim C10 (witness): a concrete double `stop` on a manager whose only
present worker finished cleanly. -/
theorem stop_twice_harmless_witness :
    mgrWorkerOk.operations_thread_handle ≠ some JoinOutcome.panicked
      ∧ mgrWorkerOk.endorsements_thread_handle ≠ some JoinOutcome.panicked
      ∧ ∃ s' log, mgrWorkerOk.stop (mkState chanOpen chanOpen)
            = some (s', stoppedManager mgrWorkerOk, log)
          ∧ (stoppedManager mgrWorkerOk).operations_thread_handle = none
          ∧ (stoppedManager mgrWorkerOk).endorsements_thread_handle = none
          ∧ ∀ t : SysState, (stoppedManager mgrWorkerOk).stop t
              = some
                ((t.setOpChan mgrWorkerOk.operations_input_sender
                    (sendIgnore (t.opChans mgrWorkerOk.operations_input_sender)
                      Command.Stop)).setEndChan
                  mgrWorkerOk.endorsements_input_sender
                  (sendIgnore
                    ((t.setOpChan mgrWorkerOk.operations_input_sender
                        (sendIgnore
                          (t.opChans mgrWorkerOk.operations_input_sender)
                          Command.Stop)).endChans
                      mgrWorkerOk.endorsements_input_sender)
                    Command.Stop),
                  stoppedManager mgrWorkerOk,
                  [LogEvent.info "stopping pool worker...",
                    LogEvent.info "pool worker stopped"]) :=
  ⟨by decide, by decide,
    stop_twice_harmless (mkState chanOpen chanOpen) mgrWorkerOk
      (by decide) (by decide)⟩
